import Mathlib

/-!
Verification of the request/response correlation and consumer-orchestration
core of the teaching system. The Python sources (src/producer.py,
src/monitor.py, src/consumer.py, src/agents/base_agent.py,
src/llm/base_engine.py, cli.py) are shallowly embedded: pure routines become
Lean functions, the mutable statistics and the pending-response map become
explicit state passing over association lists that mirror Python dict
semantics (insertion order, overwrite in place), monetary costs are modelled
as exact rationals, and the external language detector, the LLM engine and
the bus transport are modelled as explicit outcome oracles. Wall-clock
timestamp fields are omitted; the one-second polling cadence of the wait
loop in cli.py is discretized to integer seconds.
-/

namespace Teaching

/-- Language tags of LanguageType in src/core/models.py. -/
inductive LanguageType where
  | chinese
  | english
  | auto
deriving DecidableEq, Repr

/-- Agent tags of AgentType in src/core/models.py. -/
inductive AgentType where
  | chinese_teacher
  | english_teacher
deriving DecidableEq, Repr

/-- Outcome of the langdetect call inside MessageProducer.detect_language:
the library may be absent (LANGDETECT_AVAILABLE is false), may return a
language code, or may raise. -/
inductive DetectOutcome where
  | unavailable
  | detected (code : String)
  | raised
deriving DecidableEq, Repr

/-- MessageProducer._contains_chinese (src/producer.py): true when some
character of the text lies in the CJK Unified Ideographs range
U+4E00 to U+9FFF. -/
def contains_chinese (text : List Char) : Bool :=
  text.any (fun c => decide (0x4e00 ≤ c.toNat) && decide (c.toNat ≤ 0x9fff))

/-- MessageProducer.detect_language (src/producer.py): when the detector is
available and returns a Chinese-family code, classify as Chinese; otherwise
fall through to the character-range check; default to English. A raising
detector lands in the except branch, which applies the same character-range
rule. -/
def detect_language (d : DetectOutcome) (text : List Char) : LanguageType :=
  match d with
  | .unavailable =>
      if contains_chinese text then .chinese else .english
  | .detected code =>
      if code == "zh-cn" || code == "zh-tw" || code == "zh" then .chinese
      else if contains_chinese text then .chinese else .english
  | .raised =>
      if contains_chinese text then .chinese else .english

/-- Association-list lookup mirroring Python dict membership and indexing:
first (and, for dicts, only) binding of the key. -/
def dict_lookup {α : Type} : List (String × α) → String → Option α
  | [], _ => none
  | (k2, v) :: rest, k => if k2 = k then some v else dict_lookup rest k

/-- Association-list assignment mirroring a Python dict item assignment:
overwrite in place when the key is present, append otherwise. -/
def dict_set {α : Type} : List (String × α) → String → α → List (String × α)
  | [], k, v => [(k, v)]
  | (k2, v2) :: rest, k, v =>
      if k2 = k then (k2, v) :: rest else (k2, v2) :: dict_set rest k v

/-- Association-list removal mirroring Python dict.pop: return the value
bound to the key (if any) together with the map without that binding. -/
def dict_pop {α : Type} : List (String × α) → String → Option α × List (String × α)
  | [], _ => (none, [])
  | (k2, v2) :: rest, k =>
      if k2 = k then (some v2, rest)
      else
        let r := dict_pop rest k
        (r.1, (k2, v2) :: r.2)

/-- The two-step bucket update of CostMonitor._process_cost_info: insert a
zero entry on first sight of the key, then add the cost to it. -/
def bucket_add (m : List (String × ℚ)) (k : String) (v : ℚ) : List (String × ℚ) :=
  match dict_lookup m k with
  | none => dict_set m k (0 + v)
  | some old => dict_set m k (old + v)

/-- Mutable accumulators of CostMonitor (src/monitor.py): total_cost,
cost_by_agent, cost_by_model, message_count. -/
structure CostState where
  total_cost : ℚ
  cost_by_agent : List (String × ℚ)
  cost_by_model : List (String × ℚ)
  message_count : ℕ
deriving DecidableEq, Repr

/-- Accumulator values set by CostMonitor.__init__. -/
def init_cost_state : CostState :=
  { total_cost := 0, cost_by_agent := [], cost_by_model := [], message_count := 0 }

/-- Fields read from the nested cost_info dict of a telemetry event; each
may be absent in a malformed event. -/
structure CostInfoData where
  cost_usd : Option ℚ
  model_name : Option String
deriving DecidableEq, Repr

/-- A telemetry event as read by CostMonitor._process_cost_info: the
agent_type field and the nested cost_info dict may each be absent. -/
structure CostEvent where
  agent_type : Option String
  cost_info : Option CostInfoData
deriving DecidableEq, Repr

/-- The cost_usd read of _process_cost_info: cost_info defaults to an empty
dict, cost_usd defaults to 0.0. -/
def event_cost (e : CostEvent) : ℚ :=
  ((e.cost_info.getD { cost_usd := none, model_name := none }).cost_usd).getD 0

/-- The agent_type read of _process_cost_info: defaults to "unknown". -/
def event_agent (e : CostEvent) : String :=
  e.agent_type.getD "unknown"

/-- The model_name read of _process_cost_info: defaults to "unknown". -/
def event_model (e : CostEvent) : String :=
  ((e.cost_info.getD { cost_usd := none, model_name := none }).model_name).getD "unknown"

/-- CostMonitor._process_cost_info (src/monitor.py): add the cost to the
total and to both per-key buckets, then increment the message count. -/
def process_cost_info (s : CostState) (e : CostEvent) : CostState :=
  { total_cost := s.total_cost + event_cost e
    cost_by_agent := bucket_add s.cost_by_agent (event_agent e) (event_cost e)
    cost_by_model := bucket_add s.cost_by_model (event_model e) (event_cost e)
    message_count := s.message_count + 1 }

/-- Snapshot returned by CostMonitor.get_statistics, minus the wall-clock
timestamp field. -/
structure Statistics where
  total_cost : ℚ
  total_messages : ℕ
  average_cost_per_message : ℚ
  cost_by_agent : List (String × ℚ)
  cost_by_model : List (String × ℚ)
deriving DecidableEq, Repr

/-- CostMonitor.get_statistics (src/monitor.py): point-in-time copy of the
accumulators, with the average guarded against division by zero. -/
def get_statistics (s : CostState) : Statistics :=
  { total_cost := s.total_cost
    total_messages := s.message_count
    average_cost_per_message := s.total_cost / ((max s.message_count 1 : ℕ) : ℚ)
    cost_by_agent := s.cost_by_agent
    cost_by_model := s.cost_by_model }

/-- CostMonitor.reset_statistics (src/monitor.py): zero the total and the
count and clear both bucket dicts. -/
def reset_statistics (_ : CostState) : CostState :=
  { total_cost := 0, cost_by_agent := [], cost_by_model := [], message_count := 0 }

/-- Message model of src/core/models.py, minus the wall-clock timestamp. -/
structure Message where
  message_id : String
  user_id : String
  content : String
  language : LanguageType
deriving DecidableEq, Repr

/-- CostInfo model of src/core/models.py, with the USD cost as an exact
rational. -/
structure CostInfo where
  input_tokens : ℕ
  output_tokens : ℕ
  total_tokens : ℕ
  cost_usd : ℚ
  model_name : String
deriving DecidableEq, Repr

/-- Response model of src/core/models.py, minus the wall-clock timestamp
and response_time fields. -/
structure Response where
  message_id : String
  success : Bool
  content : String
  agent_type : AgentType
  cost_info : CostInfo
deriving DecidableEq, Repr

/-- Shared cost formula of GeminiEngine.calculate_cost and
OllamaEngine.calculate_cost, parametrized by the per-1K-token input and
output rates of the engine configuration. -/
def calculate_cost (in_rate out_rate : ℚ) (input_tokens output_tokens : ℕ) : ℚ :=
  ((input_tokens : ℚ) / 1000) * in_rate + ((output_tokens : ℚ) / 1000) * out_rate

/-- BaseLLMEngine.create_cost_info (src/llm/base_engine.py): build a
CostInfo from the token counts, the engine rates and the engine name. -/
def create_cost_info (in_rate out_rate : ℚ) (engine_name : String)
    (input_tokens output_tokens : ℕ) : CostInfo :=
  { input_tokens := input_tokens
    output_tokens := output_tokens
    total_tokens := input_tokens + output_tokens
    cost_usd := calculate_cost in_rate out_rate input_tokens output_tokens
    model_name := engine_name }

/-- Dictionary returned by an engine generate_response call: content,
success flag, cost record and optional error description. -/
structure LLMResult where
  content : String
  success : Bool
  cost_info : CostInfo
  error : Option String
deriving DecidableEq, Repr

/-- Outcome oracle for the llm_engine.generate_response call made inside
BaseAgent.process_message: either it returns a result dict or it raises. -/
inductive LLMOutcome where
  | ok (r : LLMResult)
  | raised (msg : String)
deriving DecidableEq, Repr

/-- BaseAgent.process_message (src/agents/base_agent.py): forward the
engine result into a Response; an exception raised during the engine call
is caught and converted into a failed Response carrying a zero-token cost
record built by create_cost_info. -/
def agent_process_message (a : AgentType) (in_rate out_rate : ℚ)
    (engine_name : String) (message : Message) (llm : LLMOutcome) : Response :=
  match llm with
  | .ok r =>
      { message_id := message.message_id
        success := r.success
        content :=
          if r.success then r.content
          else "Processing failed: " ++ r.error.getD "Unknown error"
        agent_type := a
        cost_info := r.cost_info }
  | .raised msg =>
      { message_id := message.message_id
        success := false
        content := "System error: " ++ msg
        agent_type := a
        cost_info := create_cost_info in_rate out_rate engine_name 0 0 }

/-- One publish attempt made by the consumer: either the Response dict sent
to the responses topic, or the derived cost_data dict sent to the
cost_monitor topic. The delivered flag records whether the underlying
kafka send raised (false) or went through (true); either way the exception
is caught inside the sending helper. -/
inductive Emission where
  | response (r : Response) (delivered : Bool)
  | cost (message_id : String) (a : AgentType) (ci : CostInfo) (delivered : Bool)
deriving DecidableEq, Repr

/-- Transport oracle: whether each of the two kafka send_message calls in
AgentConsumer raises. -/
structure Transport where
  response_send_raises : Bool
  cost_send_raises : Bool
deriving DecidableEq, Repr

/-- AgentConsumer._send_response (src/consumer.py): one publish attempt to
the responses topic; a raising send is caught and logged. -/
def send_response (raises : Bool) (r : Response) : List Emission :=
  [Emission.response r (!raises)]

/-- AgentConsumer._send_cost_info (src/consumer.py): one publish attempt of
the derived cost_data dict to the cost_monitor topic; a raising send is
caught and logged. -/
def send_cost_info (raises : Bool) (r : Response) : List Emission :=
  [Emission.cost r.message_id r.agent_type r.cost_info (!raises)]

/-- AgentConsumer._process_message (src/consumer.py), returning the list of
publish attempts it makes. The parsed argument is the outcome of the
pydantic Message(**message_data) construction: none when it raises, in
which case control jumps to the outer except clause, which only logs, so
nothing is published. On a parsed message the agent is invoked and both
sends are attempted in order. -/
def consumer_process_message (a : AgentType) (in_rate out_rate : ℚ)
    (engine_name : String) (parsed : Option Message) (llm : LLMOutcome)
    (tr : Transport) : List Emission :=
  match parsed with
  | none => []
  | some m =>
      let resp := agent_process_message a in_rate out_rate engine_name m llm
      send_response tr.response_send_raises resp ++
        send_cost_info tr.cost_send_raises resp

/-- Number of reply-channel publish attempts in an emission list. -/
def count_response_emissions (es : List Emission) : ℕ :=
  (es.filter (fun e => match e with | .response _ _ => true | .cost _ _ _ _ => false)).length

/-- Number of telemetry-channel publish attempts in an emission list. -/
def count_cost_emissions (es : List Emission) : ℕ :=
  (es.filter (fun e => match e with | .response _ _ => false | .cost _ _ _ _ => true)).length

/-- A reply message as read from the responses topic by the listener in
cli.py: the message_id field (absent when the dict lacks it) plus the
payload fields relevant to correlation. -/
structure ReplyData where
  message_id : Option String
  success : Bool
  content : String
deriving DecidableEq, Repr

/-- One received reply inside TeachingSystemCLI._listen_responses
(cli.py): response_data.get of message_id, and the Python truthiness test
treats both a missing id and an empty-string id as falsy, skipping the
store; otherwise the raw dict is stored under its id. -/
def listen_step (responses : List (String × ReplyData)) (msg : ReplyData) :
    List (String × ReplyData) :=
  match msg.message_id with
  | none => responses
  | some id => if id = "" then responses else dict_set responses id msg

/-- The check at the top of the wait loop in TeachingSystemCLI.ask_question
(cli.py): when the responses map holds an entry for our message id, pop it
and return it. -/
def ask_check (responses : List (String × ReplyData)) (id : String) :
    Option ReplyData × List (String × ReplyData) :=
  match dict_lookup responses id with
  | none => (none, responses)
  | some _ => dict_pop responses id

/-- Result of the wait loop in TeachingSystemCLI.ask_question: either the
popped reply data or the timeout dict. -/
inductive AskResult where
  | reply (r : ReplyData)
  | timed_out
deriving DecidableEq, Repr

/-- Wait loop of TeachingSystemCLI.ask_question, discretized to one-second
polls: at elapsed second t the loop first checks the responses map for our
id (modelled by the oracle present), then tests elapsed time strictly
greater than the timeout, then waits up to one second and loops. The last
argument counts the loop iterations left before the timeout test fires,
namely timeout + 1 - t. -/
def ask_wait_from (present : ℕ → Option ReplyData) (t : ℕ) : ℕ → AskResult
  | 0 =>
      match present t with
      | some r => AskResult.reply r
      | none => AskResult.timed_out
  | remaining + 1 =>
      match present t with
      | some r => AskResult.reply r
      | none => ask_wait_from present (t + 1) remaining

/-- The wait loop started at elapsed time zero with a given timeout in
seconds. -/
def ask_wait (timeout : ℕ) (present : ℕ → Option ReplyData) : AskResult :=
  ask_wait_from present 0 (timeout + 1)

/-- The wait exactly as TeachingSystemCLI.ask_question runs it: the local
timeout variable is the literal 30; the method takes no timeout argument
and does not read Config.REQUEST_TIMEOUT. -/
def cli_ask_wait (present : ℕ → Option ReplyData) : AskResult :=
  ask_wait 30 present

/-- Setting a key and then looking it up yields the new value. -/
theorem dict_lookup_dict_set_self {α : Type} (m : List (String × α)) (k : String) (v : α) :
    dict_lookup (dict_set m k v) k = some v := by
  induction m with
  | nil => simp [dict_set, dict_lookup]
  | cons p rest ih =>
      obtain ⟨k2, v2⟩ := p
      by_cases h : k2 = k
      · simp [dict_set, dict_lookup, h]
      · simp [dict_set, dict_lookup, h, ih]

/-- Popping a freshly set key returns the new value and restores the
original map. -/
theorem dict_pop_dict_set_fresh {α : Type} (m : List (String × α)) (k : String) (v : α)
    (h : dict_lookup m k = none) :
    dict_pop (dict_set m k v) k = (some v, m) := by
  induction m with
  | nil => simp [dict_set, dict_pop]
  | cons p rest ih =>
      obtain ⟨k2, v2⟩ := p
      by_cases hk : k2 = k
      · simp [dict_lookup, hk] at h
      · simp only [dict_lookup, hk, if_neg hk] at h
        simp [dict_set, dict_pop, hk, ih h]

/-- A bucket update never leaves its own key absent. -/
theorem dict_lookup_bucket_add_self (m : List (String × ℚ)) (k : String) (v : ℚ) :
    dict_lookup (bucket_add m k v) k ≠ none := by
  unfold bucket_add
  cases h : dict_lookup m k <;> simp [dict_lookup_dict_set_self]

/-- C2: for every input text containing at least one character in the range
U+4E00 to U+9FFF, detect_language returns the Chinese tag, whatever the
detector outcome: unavailable, any reported code, or an exception. -/
theorem detect_language_chinese_char (d : DetectOutcome) (text : List Char)
    (h : contains_chinese text = true) :
    detect_language d text = LanguageType.chinese := by
  cases d with
  | unavailable => simp [detect_language, h]
  | raised => simp [detect_language, h]
  | detected code =>
      by_cases hc : (code == "zh-cn" || code == "zh-tw" || code == "zh") = true
      · simp [detect_language, hc]
      · simp [detect_language, hc, h]

/-- Witness for C2 on a concrete one-character Chinese text with a detector
that reports an unrelated code. -/
theorem detect_language_chinese_char_witness :
    contains_chinese [Char.ofNat 0x4f60] = true ∧
      detect_language (DetectOutcome.detected "en") [Char.ofNat 0x4f60]
        = LanguageType.chinese :=
  ⟨by decide,
    detect_language_chinese_char (DetectOutcome.detected "en") [Char.ofNat 0x4f60]
      (by decide)⟩

/-- C10: detect_language is a total function whose result is always the
Chinese tag or the English tag and never the auto member; detector
exceptions land in the character-range fallback, which defaults to
English. -/
theorem detect_language_total_never_auto (d : DetectOutcome) (text : List Char) :
    (detect_language d text = LanguageType.chinese ∨
      detect_language d text = LanguageType.english) ∧
    detect_language d text ≠ LanguageType.auto := by
  cases d <;> simp only [detect_language] <;> (repeat' split) <;> simp

/-- Folding telemetry events adds the event costs to the running total and
the event count to the running message count. -/
theorem process_cost_fold_general (events : List CostEvent) (s : CostState) :
    (events.foldl process_cost_info s).total_cost
        = s.total_cost + (events.map event_cost).sum ∧
      (events.foldl process_cost_info s).message_count
        = s.message_count + events.length := by
  induction events generalizing s with
  | nil => simp
  | cons e rest ih =>
      simp only [List.foldl_cons, List.map_cons, List.sum_cons, List.length_cons]
      obtain ⟨h1, h2⟩ := ih (process_cost_info s e)
      constructor
      · rw [h1]; simp [process_cost_info]; ring
      · rw [h2]; simp [process_cost_info]; omega

/-- C4: starting from the zeroed accumulators, after processing n telemetry
events the snapshot reports total cost equal to the sum of the event costs
and total message count equal to n. -/
theorem snapshot_after_events (events : List CostEvent) :
    (get_statistics (events.foldl process_cost_info init_cost_state)).total_cost
        = (events.map event_cost).sum ∧
      (get_statistics (events.foldl process_cost_info init_cost_state)).total_messages
        = events.length := by
  obtain ⟨h1, h2⟩ := process_cost_fold_general events init_cost_state
  constructor
  · simpa [get_statistics, init_cost_state] using h1
  · simpa [get_statistics, init_cost_state] using h2

/-- C8: a reset followed immediately by a snapshot yields all-zero
accumulators and empty per-agent and per-model maps, regardless of the
state accumulated before the reset. -/
theorem reset_then_snapshot (s : CostState) :
    get_statistics (reset_statistics s) =
      { total_cost := 0, total_messages := 0, average_cost_per_message := 0,
        cost_by_agent := [], cost_by_model := [] } := by
  simp [get_statistics, reset_statistics]

/-- C7 counterexample: processing an event with every field missing
attributes it to the key "unknown" with cost zero; no empty-string key is
ever created, so the claimed empty-string default for identifier fields is
false on the code. -/
theorem process_cost_empty_string_counterexample :
    dict_lookup (process_cost_info init_cost_state
        { agent_type := none, cost_info := none }).cost_by_agent "" = none ∧
      dict_lookup (process_cost_info init_cost_state
        { agent_type := none, cost_info := none }).cost_by_agent "unknown" = some 0 ∧
      (process_cost_info init_cost_state
        { agent_type := none, cost_info := none }).message_count = 1 := by
  refine ⟨?_, ?_, rfl⟩ <;>
    simp [process_cost_info, bucket_add, event_agent, event_model, event_cost,
      init_cost_state, dict_lookup, dict_set]

/-- C7 amended: a malformed telemetry event is still counted, a missing
numeric cost defaults to zero, and missing identifier fields default to
the key "unknown" (not the empty string), so every counted event is
attributed to a present bucket in both per-key maps. -/
theorem process_cost_malformed_defaults (s : CostState) (e : CostEvent) :
    (process_cost_info s e).message_count = s.message_count + 1 ∧
    dict_lookup (process_cost_info s e).cost_by_agent (event_agent e) ≠ none ∧
    dict_lookup (process_cost_info s e).cost_by_model (event_model e) ≠ none ∧
    event_agent { agent_type := none, cost_info := none } = "unknown" ∧
    event_model { agent_type := none, cost_info := none } = "unknown" ∧
    event_cost { agent_type := none, cost_info := none } = 0 := by
  refine ⟨rfl, ?_, ?_, rfl, rfl, rfl⟩ <;>
    simp [process_cost_info, dict_lookup_bucket_add_self]

/-- C9: for every message that parses, the consumer makes exactly one
reply-channel publish attempt and exactly one telemetry-channel publish
attempt, whatever the transport outcome of either send: a raising send is
caught inside its own helper and does not prevent the other attempt, and
neither emission is ever attempted twice. -/
theorem emissions_independent (a : AgentType) (in_rate out_rate : ℚ)
    (engine_name : String) (m : Message) (llm : LLMOutcome) (tr : Transport) :
    count_response_emissions
        (consumer_process_message a in_rate out_rate engine_name (some m) llm tr) = 1 ∧
      count_cost_emissions
        (consumer_process_message a in_rate out_rate engine_name (some m) llm tr) = 1 := by
  simp [consumer_process_message, send_response, send_cost_info,
    count_response_emissions, count_cost_emissions]

/-- C1 counterexample: a message whose deserialization into a Message
raises reaches only the outer except clause of _process_message, which
merely logs; no publish attempt is made, so no failed Reply is produced
for that request, contradicting the claimed conversion of deserialization
failures into published failure Replies. -/
theorem deserialize_failure_counterexample :
    consumer_process_message AgentType.english_teacher (1 / 8000) (3 / 8000)
        "gemini-1.5-flash" none (LLMOutcome.raised "bad payload")
        { response_send_raises := false, cost_send_raises := false } = [] ∧
      count_response_emissions
        (consumer_process_message AgentType.english_teacher (1 / 8000) (3 / 8000)
          "gemini-1.5-flash" none (LLMOutcome.raised "bad payload")
          { response_send_raises := false, cost_send_raises := false }) = 0 :=
  ⟨rfl, rfl⟩

/-- C1 amended: a failure raised during the responder invocation is caught
inside BaseAgent.process_message and converted into a Reply with success
false carrying the zero-token, zero-cost record, which the consumer then
publishes (one reply attempt and one telemetry attempt); a deserialization
failure, in contrast, is caught and logged with no Reply published, so the
one-Request-one-Reply guarantee holds only for messages that deserialize
successfully. -/
theorem responder_failure_failed_reply (a : AgentType) (in_rate out_rate : ℚ)
    (engine_name : String) (m : Message) (err : String) (tr : Transport) :
    consumer_process_message a in_rate out_rate engine_name (some m)
        (LLMOutcome.raised err) tr =
      [Emission.response
          (agent_process_message a in_rate out_rate engine_name m (LLMOutcome.raised err))
          (!tr.response_send_raises),
        Emission.cost m.message_id a (create_cost_info in_rate out_rate engine_name 0 0)
          (!tr.cost_send_raises)] ∧
      (agent_process_message a in_rate out_rate engine_name m
        (LLMOutcome.raised err)).success = false ∧
      (create_cost_info in_rate out_rate engine_name 0 0).total_tokens = 0 ∧
      (create_cost_info in_rate out_rate engine_name 0 0).cost_usd = 0 ∧
      consumer_process_message a in_rate out_rate engine_name none
        (LLMOutcome.raised err) tr = [] := by
  refine ⟨?_, rfl, rfl, ?_, rfl⟩
  · simp [consumer_process_message, send_response, send_cost_info, agent_process_message]
  · simp [create_cost_info, calculate_cost]

/-- C3: when no entry exists yet for a request id and the listener then
stores a reply carrying that id, the wait-loop check returns exactly that
reply and removes the entry, restoring the map, so a repeated check on the
same id returns nothing. -/
theorem reply_delivered_exactly_once (responses : List (String × ReplyData))
    (msg : ReplyData) (id : String)
    (hfresh : dict_lookup responses id = none)
    (hid : msg.message_id = some id) (hne : id ≠ "") :
    (ask_check (listen_step responses msg) id).1 = some msg ∧
      (ask_check (listen_step responses msg) id).2 = responses ∧
      dict_lookup (ask_check (listen_step responses msg) id).2 id = none ∧
      (ask_check (ask_check (listen_step responses msg) id).2 id).1 = none := by
  have hstep : listen_step responses msg = dict_set responses id msg := by
    simp [listen_step, hid, hne]
  have hpop : dict_pop (dict_set responses id msg) id = (some msg, responses) :=
    dict_pop_dict_set_fresh responses id msg hfresh
  have hcheck : ask_check (listen_step responses msg) id = (some msg, responses) := by
    rw [hstep]
    simp [ask_check, dict_lookup_dict_set_self, hpop]
  refine ⟨by rw [hcheck], by rw [hcheck], ?_, ?_⟩
  · rw [hcheck]
    exact hfresh
  · rw [hcheck]
    simp [ask_check, hfresh]

/-- Witness for C3 at a concrete request id and reply payload. -/
theorem reply_delivered_exactly_once_witness :
    dict_lookup ([] : List (String × ReplyData)) "req-1" = none ∧
      (ask_check (listen_step []
          { message_id := some "req-1", success := true, content := "hi" }) "req-1").1
        = some { message_id := some "req-1", success := true, content := "hi" } :=
  ⟨rfl,
    (reply_delivered_exactly_once []
      { message_id := some "req-1", success := true, content := "hi" } "req-1"
      rfl rfl (by decide)).1⟩

/-- C5 counterexample: a reply arriving while no caller waits on its id is
stored into the responses map by the listener, so after the arrival is
handled the correlation state does hold an entry for that identifier,
contradicting the claimed absence of an entry. -/
theorem orphan_reply_retained_counterexample :
    dict_lookup (listen_step []
        { message_id := some "orphan-1", success := true, content := "late" }) "orphan-1"
      = some { message_id := some "orphan-1", success := true, content := "late" } := by
  decide

/-- C5 amended: an unmatched Reply is never handed to any caller, but it is
not removed from state either: the listener stores every reply with a
nonempty id unconditionally, without consulting who is waiting, so the
correlation state retains the entry until some later check pops it. -/
theorem unmatched_reply_retained (responses : List (String × ReplyData))
    (msg : ReplyData) (id : String)
    (hid : msg.message_id = some id) (hne : id ≠ "") :
    dict_lookup (listen_step responses msg) id = some msg := by
  simp [listen_step, hid, hne, dict_lookup_dict_set_self]

/-- Witness for C5 amended at a concrete orphaned reply. -/
theorem unmatched_reply_retained_witness :
    dict_lookup (listen_step []
        { message_id := some "ghost-7", success := false, content := "x" }) "ghost-7"
      = some { message_id := some "ghost-7", success := false, content := "x" } :=
  unmatched_reply_retained []
    { message_id := some "ghost-7", success := false, content := "x" } "ghost-7"
    rfl (by decide)

/-- With no reply ever present, every iteration of the wait loop falls
through to the one-second wait and finally to the timeout test. -/
theorem ask_wait_from_none (present : ℕ → Option ReplyData)
    (h : ∀ t, present t = none) :
    ∀ remaining t, ask_wait_from present t remaining = AskResult.timed_out := by
  intro remaining
  induction remaining with
  | zero =>
      intro t
      simp [ask_wait_from, h t]
  | succ n ih =>
      intro t
      simp [ask_wait_from, h t, ih (t + 1)]

/-- C6 amended: when no matching reply is ever published, the wait loop of
ask_question returns the timed-out result rather than blocking
indefinitely or raising; its timeout is the hard-coded 30 seconds of
cli.py, with no per-call timeout argument and no use of
Config.REQUEST_TIMEOUT. -/
theorem no_reply_times_out (present : ℕ → Option ReplyData)
    (h : ∀ t, present t = none) :
    cli_ask_wait present = AskResult.timed_out ∧
      cli_ask_wait present = ask_wait 30 present :=
  ⟨ask_wait_from_none present h (30 + 1) 0, rfl⟩

/-- Witness for C6 amended with the constantly empty reply oracle. -/
theorem no_reply_times_out_witness :
    cli_ask_wait (fun _ => none) = AskResult.timed_out ∧
      cli_ask_wait (fun _ => none) = ask_wait 30 (fun _ => none) :=
  no_reply_times_out (fun _ => none) (fun _ => rfl)

/-- Reply oracle for a reply that the listener stores five seconds after
the wait began. -/
def reply_at_five : ℕ → Option ReplyData :=
  fun t =>
    if 5 ≤ t then some { message_id := some "req-5", success := true, content := "a" }
    else none

/-- C6 counterexample: the wait is not configurable per call. Per the
claim, a caller configuring a one-second timeout would time out before a
reply stored at five seconds; the code path, with its fixed 30-second
timeout, returns that reply instead, so no per-call timeout is honored. -/
theorem fixed_timeout_counterexample :
    cli_ask_wait reply_at_five
        = AskResult.reply { message_id := some "req-5", success := true, content := "a" } ∧
      ask_wait 1 reply_at_five = AskResult.timed_out ∧
      cli_ask_wait reply_at_five ≠ ask_wait 1 reply_at_five := by
  decide

end Teaching
